import Mathlib

/-!
Verification development for stfs-webjs (`src/stfs.js`), a reader for the
Xbox 360 STFS container format.  The JavaScript source is shallowly embedded
below: the global mutable variables become an explicit `State` value, the
loaded `ArrayBuffer`/`Uint8Array` pair becomes a `Buffer` value, machine
integers are modelled as `Nat` with explicit masking where the source masks,
and functions that `throw` return `Except String`.  Loops of the source that
are bounded only by the data (the record scan of `STFS_InitFS` and the parent
walk of `STFS_GetFilePath`) take an explicit fuel argument; fuel exhaustion
is returned as the empty result / `none` and models non-termination of the
corresponding unbounded JavaScript loop.
-/

/-- Model of the loaded `ArrayBuffer` plus its `Uint8Array` view
(`STFS_FileBuffer` / `STFS_UInt8View`): a length and a byte function.
Real `Uint8Array` values are below 256; concrete buffers used in the
theorems respect that. -/
structure Buffer where
  byteLength : Nat
  byte : Nat → Nat

/-- One row of `STFS_FileTable` as pushed by `STFS_InitFS`
(the object literal at src/stfs.js:215).  File names are kept as the list
of character codes produced by `STFS_ReadASCIIString`. -/
structure FileTableEntry where
  fileName : List Nat
  nameLength : Nat
  flags : Nat
  parentDirectory : Nat
  fileSize : Nat
  startingBlock : Nat
  numOfBlocks : Nat
deriving DecidableEq

/-- The global mutable variables of stfs.js (lines 27-32) gathered into one
state value.  `STFS_FileTable` is initialised to an array `[]` but
`STFS_Reset` assigns the boolean `false` to it, so the field is a sum of
the two JavaScript types it can hold. -/
structure State where
  fileBuffer : Option Buffer
  dirty : Bool
  packageLoaded : Bool
  tableSizeShift : Nat
  fileTable : Sum Bool (List FileTableEntry)

/-- The initial global state of stfs.js at script load (lines 27-32):
no buffer, flags down, shift 0, file table an empty array. -/
def initialState : State :=
  { fileBuffer := none, dirty := false, packageLoaded := false
    tableSizeShift := 0, fileTable := Sum.inr [] }

-- package type constants (src/stfs.js:36-38)
def STFS_CON : Nat := 0x434F4E20
def STFS_LIVE : Nat := 0x4C495645
def STFS_PIRS : Nat := 0x50495253

/-- `STFS_Swap24` (src/stfs.js:53-55). -/
def STFS_Swap24 (i : Nat) : Nat :=
  (((i &&& 0xff) <<< 16) ||| (i &&& 0x00ff00) ||| (i >>> 16)) &&& 0xffffff

/-- `STFS_Read8` (src/stfs.js:60-63) on an explicit buffer.  The source
guards every read with the `STFS_Dirty` flag; all reads below happen on
states where that guard passes (it is set before any read in
`STFS_LoadPackage`, and all later readers require a loaded package), so the
pure reads omit the guard. -/
def STFS_Read8 (buf : Buffer) (offset : Nat) : Nat :=
  buf.byte offset

/-- `STFS_Read16` (src/stfs.js:64-67): big-endian 16-bit read. -/
def STFS_Read16 (buf : Buffer) (offset : Nat) : Nat :=
  ((STFS_Read8 buf offset <<< 8) ||| STFS_Read8 buf (offset + 1)) &&& 0xffff

/-- `STFS_Read32` (src/stfs.js:68-71): big-endian 32-bit read. -/
def STFS_Read32 (buf : Buffer) (offset : Nat) : Nat :=
  ((STFS_Read16 buf offset <<< 16) ||| STFS_Read16 buf (offset + 2)) &&& 0xffffffff

/-- `STFS_Read24` (src/stfs.js:72-75): reads the 32-bit word one byte to the
left and masks to 24 bits, i.e. a big-endian 3-byte read at `offset`. -/
def STFS_Read24 (buf : Buffer) (offset : Nat) : Nat :=
  STFS_Read32 buf (offset - 1) &&& 0xffffff

/-- The loop body of `STFS_ReadASCIIString` (src/stfs.js:86-95): collect
bytes until a zero byte or until `length` bytes were taken. -/
def STFS_ReadASCIIStringAux (buf : Buffer) (offset : Nat) : Nat → List Nat
  | 0 => []
  | n + 1 =>
    let read := STFS_Read8 buf offset
    if read = 0 then [] else read :: STFS_ReadASCIIStringAux buf (offset + 1) n

/-- `STFS_ReadASCIIString` (src/stfs.js:86-95), returning character codes. -/
def STFS_ReadASCIIString (buf : Buffer) (offset length : Nat) : List Nat :=
  STFS_ReadASCIIStringAux buf offset length

/-- `STFS_BlockToOffset` (src/stfs.js:221-226).  The source reads the global
`STFS_TableSizeShift`; here it is the explicit `shift` argument.  JavaScript
`<<` truncates its left operand toward zero, which on the non-negative
values here coincides with `Nat` division followed by `<<<`. -/
def STFS_BlockToOffset (shift : Nat) (blockNum : Nat) : Nat :=
  let b1 := if 0xAA ≤ blockNum then blockNum + ((blockNum / 0xAA + 1) <<< shift) else blockNum
  let b2 := if 0x70E4 ≤ blockNum then b1 + ((blockNum / 0x70E4 + 1) <<< shift) else b1
  0xC000 + b2 * 0x1000

/-- `STFS_BlockToHashOffset` (src/stfs.js:228-234).  Note that, as in the
source, the `blockNum >= 0xAA` branch adds a term computed from the
`0x70E4` divisor. -/
def STFS_BlockToHashOffset (shift : Nat) (blockNum : Nat) : Nat :=
  let record := blockNum % 0xAA
  let t0 := (blockNum / 0xAA) * (if shift = 1 then 0xAC else 0xAB)
  let t1 := if 0xAA ≤ blockNum then t0 + ((blockNum / 0x70E4 + 1) <<< shift) else t0
  let t2 := if 0x70E4 ≤ blockNum then t1 + (1 <<< shift) else t1
  (if shift = 0 then 0xB000 else 0) + t2 * 0x1000 + record * 0x18

/-- The `while (blockCount > 0)` loop of `STFS_GetBlocksFromBlock`
(src/stfs.js:238-244), producing the blocks appended after the initial
`[blockNum]`.  `last` is `blocks.at(-1)`; the counter is the recursion
measure exactly as in the source. -/
def STFS_GetBlocksFromBlockAux (shift : Nat) (buf : Buffer) (last : Nat) :
    Nat → List Nat
  | 0 => []
  | n + 1 =>
    let newBlock := STFS_Read24 buf (STFS_BlockToHashOffset shift last + 0x15)
    if newBlock = last ∨ newBlock = 0xFFFFFF then []
    else newBlock :: STFS_GetBlocksFromBlockAux shift buf newBlock n

/-- `STFS_GetBlocksFromBlock` (src/stfs.js:236-246): starts from
`[blockNum]` and follows the chain records. -/
def STFS_GetBlocksFromBlock (shift : Nat) (buf : Buffer)
    (blockNum blockCount : Nat) : List Nat :=
  blockNum :: STFS_GetBlocksFromBlockAux shift buf blockNum blockCount

/-- Decoding of one 64-byte file record, the body of the inner loop of
`STFS_InitFS` (src/stfs.js:207-215). -/
def readFileRecord (buf : Buffer) (offset : Nat) : FileTableEntry :=
  let rawNameLength := STFS_Read8 buf (offset + 0x28)
  let flags := (rawNameLength &&& 0xC0) >>> 6
  let nameLength := rawNameLength &&& 0x3F
  { fileName := STFS_ReadASCIIString buf offset nameLength
    nameLength := nameLength
    flags := flags
    parentDirectory := STFS_Read16 buf (offset + 0x32)
    fileSize := STFS_Read32 buf (offset + 0x34)
    startingBlock := STFS_Swap24 (STFS_Read24 buf (offset + 0x2F))
    numOfBlocks := STFS_Swap24 (STFS_Read24 buf (offset + 0x29)) }

/-- The inner `while (true)` loop of `STFS_InitFS` (src/stfs.js:205-217):
scan 64-byte records from `offset`, stopping at the first record whose
first byte is 0.  The source loop has no other bound, so `fuel` bounds the
recursion; fuel exhaustion models the loop running on. -/
def scanRecords (buf : Buffer) (offset : Nat) : Nat → List FileTableEntry
  | 0 => []
  | fuel + 1 =>
    if STFS_Read8 buf offset = 0 then []
    else readFileRecord buf offset :: scanRecords buf (offset + 0x40) fuel

/-- The outer `for` loop of `STFS_InitFS` (src/stfs.js:203-218): each block
of the root chain is scanned in order and the entries are pushed onto the
single `STFS_FileTable` array. -/
def scanBlocks (buf : Buffer) (shift fuel : Nat) :
    List Nat → List FileTableEntry
  | [] => []
  | b :: bs =>
    scanRecords buf (STFS_BlockToOffset shift b) fuel
      ++ scanBlocks buf shift fuel bs

/-- `STFS_InitFS` (src/stfs.js:197-219).  The table-size-shift update,
the chain walk for the root table and the per-block record scan follow the
source; `fuel` bounds the unbounded inner scan loop.  The addition
`entryID + 0xFFF` passes through JavaScript `ToInt32`, hence the explicit
reduction modulo 2^32 before masking. -/
def STFS_InitFS (s : State) (buf : Buffer) (fuel : Nat) : Except String State :=
  if s.packageLoaded then
    let entryID := STFS_Read32 buf 0x340
    let shift :=
      if ((((entryID + 0xFFF) % 0x100000000) &&& 0xF000) >>> 0xC) ≠ 0xB then 1
      else s.tableSizeShift
    let tableBlocks :=
      STFS_GetBlocksFromBlock shift buf
        (STFS_Read24 buf (0x379 + 0x4)) (STFS_Read16 buf (0x379 + 0x2))
    Except.ok { s with tableSizeShift := shift
                       fileTable := Sum.inr (scanBlocks buf shift fuel tableBlocks) }
  else Except.error "No STFS package loaded, please run STFS_LoadPackage"

/-- `STFS_GetFileTable` (src/stfs.js:248-250): returns the global
`STFS_FileTable` value with no state check. -/
def STFS_GetFileTable (s : State) : Sum Bool (List FileTableEntry) :=
  s.fileTable

/-- `STFS_GetFilePath` (src/stfs.js:256-263), with fuel bounding the
`while (file.parentDirectory != 0xffff)` loop, which the source does not
bound.  The result is the character-code list of the slash-joined path;
`none` stands for an abnormal outcome: fuel exhaustion (the source loop
still running) or an out-of-range parent index (a JavaScript `TypeError`
on reading a field of `undefined`). -/
def STFS_GetFilePath (table : List FileTableEntry) (file : FileTableEntry) :
    Nat → Option (List Nat)
  | 0 => none
  | fuel + 1 =>
    if file.parentDirectory = 0xFFFF then some file.fileName
    else
      (table.get? file.parentDirectory).bind fun parent =>
        (STFS_GetFilePath table parent fuel).map fun pre =>
          pre ++ 0x2F :: file.fileName

/-- The source's `STFS_GetFilePath` loop terminates normally on `file` iff
some finite fuel suffices. -/
def GetFilePathTerminates (table : List FileTableEntry)
    (file : FileTableEntry) : Prop :=
  ∃ fuel, (STFS_GetFilePath table file fuel).isSome = true

/-- The byte range a `new Uint8Array(STFS_FileBuffer, offset, len)` slice
denotes (src/stfs.js:272). -/
def sliceBytes (buf : Buffer) (offset len : Nat) : List Nat :=
  (List.range len).map fun i => buf.byte (offset + i)

/-- The block-copy loop of `STFS_ReadFile` (src/stfs.js:270-275): one slice
per block, sized `readRemaining < 0x1000 ? readRemaining : 0x1000`, with the
loop breaking once `readRemaining` drops to or below zero. -/
def readFileChunks (buf : Buffer) (shift : Nat) :
    List Nat → Nat → List (List Nat)
  | [], _ => []
  | b :: bs, remaining =>
    let chunk := sliceBytes buf (STFS_BlockToOffset shift b)
      (if remaining < 0x1000 then remaining else 0x1000)
    if remaining ≤ 0x1000 then [chunk]
    else chunk :: readFileChunks buf shift bs (remaining - 0x1000)

/-- `STFS_ReadFile` (src/stfs.js:265-277): reject directories, walk the
chain, gather the per-block slices.  The source wraps the slices in a Blob;
the model returns the list of slices. -/
def STFS_ReadFile (s : State) (buf : Buffer) (file : FileTableEntry) :
    Except String (List (List Nat)) :=
  if file.flags &&& 2 = 2 then Except.error "This is a directory!"
  else
    Except.ok (readFileChunks buf s.tableSizeShift
      (STFS_GetBlocksFromBlock s.tableSizeShift buf file.startingBlock file.numOfBlocks)
      file.fileSize)

/-- `STFS_Reset` (src/stfs.js:295-302).  Note the source assigns the
boolean `false`, not an empty array, to `STFS_FileTable`. -/
def STFS_Reset (_ : State) : State :=
  { fileBuffer := none, dirty := false, packageLoaded := false
    tableSizeShift := 0, fileTable := Sum.inl false }

/-- `STFS_LoadPackage` (src/stfs.js:305-323) as a state transformer:
a `throw` returns the error together with the globals as mutated so far.
The source's `!abuf instanceof ArrayBuffer` check never fires (it negates
`abuf` before `instanceof`), and the model's argument is a `Buffer` anyway,
so it is omitted.  `STFS_Dirty` and the buffer are set before the magic is
read, exactly as in the source. -/
def STFS_LoadPackage (s : State) (abuf : Buffer) : Except String Bool × State :=
  if s.dirty then
    (Except.error "STFS.js is in a dirty state, please run STFS_Reset", s)
  else if s.packageLoaded then
    (Except.error "STFS file already loaded, please run STFS_Reset", s)
  else if abuf.byteLength ≤ 0x971A then
    (Except.error "Input file too short", s)
  else
    let s1 := { s with dirty := true, fileBuffer := some abuf }
    let magic := STFS_Read32 abuf 0
    if magic = STFS_CON ∨ magic = STFS_LIVE ∨ magic = STFS_PIRS then
      (Except.ok true, { s1 with packageLoaded := true })
    else
      (Except.error "Input is not a valid STFS archive", s1)

/-- Calling `STFS_BlockToOffset` through the library state: the source
function performs no loaded-state check, so the call always succeeds,
using whatever `STFS_TableSizeShift` currently holds. -/
def STFS_BlockToOffsetCall (s : State) (blockNum : Nat) : Except String Nat :=
  Except.ok (STFS_BlockToOffset s.tableSizeShift blockNum)

/-- Calling `STFS_BlockToHashOffset` through the library state: likewise
unguarded in the source. -/
def STFS_BlockToHashOffsetCall (s : State) (blockNum : Nat) : Except String Nat :=
  Except.ok (STFS_BlockToHashOffset s.tableSizeShift blockNum)

/-! ### Concrete fixtures used by the theorems below -/

/-- A buffer of all-zero bytes, long enough for any offset used below. -/
def zeroBuf : Buffer := { byteLength := 0x100000, byte := fun _ => 0 }

/-- A state as produced by a successful `STFS_LoadPackage`: dirty and
loaded, shift 0, file table still the initial empty array. -/
def loadedState : State :=
  { fileBuffer := none, dirty := true, packageLoaded := true
    tableSizeShift := 0, fileTable := Sum.inr [] }

/-- A container image whose root file-table chain is the two physical
blocks 0 and 1: the header keeps the table-size shift at 0 and names block
0 with block count 1 as the root table; block 0's chain record points to
block 1; block 0's first record byte is 0, while block 1 holds one valid
record (name byte 0x41) followed by a zero record. -/
def c3buf : Buffer :=
  { byteLength := 0x20000
    byte := fun o =>
      if o = 0x342 then 0xA0 else if o = 0x343 then 0x01
      else if o = 0x37C then 0x01
      else if o = 0xB017 then 0x01
      else if o = 0xD000 then 0x41
      else if o = 0xD028 then 0x01
      else 0 }

/-- The single file-table entry `STFS_InitFS` extracts from `c3buf`. -/
def c3Entry : FileTableEntry :=
  { fileName := [0x41], nameLength := 1, flags := 0, parentDirectory := 0
    fileSize := 0, startingBlock := 0, numOfBlocks := 0 }

/-- A non-directory entry claiming 0x2000 bytes but whose chain walk yields
a single block (`numOfBlocks = 0` keeps the walk at `[startingBlock]`). -/
def entry5 : FileTableEntry :=
  { fileName := [], nameLength := 0, flags := 0, parentDirectory := 0
    fileSize := 0x2000, startingBlock := 0, numOfBlocks := 0 }

/-- A buffer with a valid CON magic whose length is exactly 0x971A. -/
def conBufShort : Buffer :=
  { byteLength := 0x971A
    byte := fun o =>
      if o = 0 then 0x43 else if o = 1 then 0x4F
      else if o = 2 then 0x4E else if o = 3 then 0x20 else 0 }

/-- The same CON-tagged content, one byte longer (0x971B bytes). -/
def conBufOk : Buffer := { conBufShort with byteLength := 0x971B }

/-- A buffer longer than the minimum threshold whose magic (all zero
bytes) matches none of the three recognized tags. -/
def badBuf : Buffer := { byteLength := 0x971B, byte := fun _ => 0 }

/-- Entry 0 of the cyclic table: its parent is entry 1. -/
def cycE0 : FileTableEntry :=
  { fileName := [0x61], nameLength := 1, flags := 0, parentDirectory := 1
    fileSize := 0, startingBlock := 0, numOfBlocks := 0 }

/-- Entry 1 of the cyclic table: its parent is entry 0. -/
def cycE1 : FileTableEntry :=
  { fileName := [0x62], nameLength := 1, flags := 0, parentDirectory := 0
    fileSize := 0, startingBlock := 0, numOfBlocks := 0 }

/-- A two-entry file table whose `parentDirectory` references form a
cycle: 0 -> 1 -> 0, never reaching the root sentinel 0xFFFF. -/
def cycTable : List FileTableEntry := [cycE0, cycE1]

/-- A root directory entry (parent is the 0xFFFF sentinel). -/
def rootE : FileTableEntry :=
  { fileName := [0x61], nameLength := 1, flags := 0, parentDirectory := 0xFFFF
    fileSize := 0, startingBlock := 0, numOfBlocks := 0 }

/-- An entry whose parent is entry 0 of a one-entry table. -/
def childE : FileTableEntry :=
  { fileName := [0x62], nameLength := 1, flags := 0, parentDirectory := 0
    fileSize := 0, startingBlock := 0, numOfBlocks := 0 }

/-! ### C1 -/

/-- C1, counterexample: with `expectedCount = 1` and a chain record whose
next pointer (0) is neither the current block (5) nor the terminator,
`STFS_GetBlocksFromBlock` returns two blocks, exceeding `expectedCount`. -/
theorem C1_counterexample :
    (STFS_GetBlocksFromBlock 0 zeroBuf 5 1).length = 2 ∧
      ¬ (STFS_GetBlocksFromBlock 0 zeroBuf 5 1).length ≤ 1 := by
  decide

theorem STFS_GetBlocksFromBlockAux_length_le (shift : Nat) (buf : Buffer) :
    ∀ (n last : Nat), (STFS_GetBlocksFromBlockAux shift buf last n).length ≤ n := by
  intro n
  induction n with
  | zero => intro last; simp [STFS_GetBlocksFromBlockAux]
  | succ n ih =>
    intro last
    simp only [STFS_GetBlocksFromBlockAux]
    split
    · simp
    · simpa [Nat.succ_le_succ] using Nat.succ_le_succ (ih _)

/-- C1, amended: the sequence returned by `STFS_GetBlocksFromBlock` has
length at most `expectedCount + 1` (the start block plus at most
`expectedCount` appended blocks), for every start block, count, shift and
buffer. -/
theorem C1_amended_theorem (shift : Nat) (buf : Buffer)
    (blockNum blockCount : Nat) :
    (STFS_GetBlocksFromBlock shift buf blockNum blockCount).length ≤ blockCount + 1 := by
  simp only [STFS_GetBlocksFromBlock, List.length_cons]
  exact Nat.succ_le_succ (STFS_GetBlocksFromBlockAux_length_le shift buf blockCount blockNum)

/-! ### C2 -/

/-- C2, counterexample: with `expectedCount = 1` and a chain record whose
next pointer is 0, the walk from block 5 returns `[5, 0]`, not `[5]`. -/
theorem C2_counterexample :
    STFS_GetBlocksFromBlock 0 zeroBuf 5 1 = [5, 0] ∧
      STFS_GetBlocksFromBlock 0 zeroBuf 5 1 ≠ [5] := by
  decide

/-- C2, amended: it is `expectedCount = 0` (not 1) for which
`STFS_GetBlocksFromBlock` returns exactly `[startBlock]` whatever the
chain-record contents are; with `expectedCount = 1` one further block may
be appended. -/
theorem C2_amended_theorem (shift : Nat) (buf : Buffer) (blockNum : Nat) :
    STFS_GetBlocksFromBlock shift buf blockNum 0 = [blockNum] := rfl

/-! ### C7 -/

/-- C7, counterexample: on the unloaded state produced by `STFS_Reset`,
both address-translation calls succeed (no invalid-state error), computing
offsets with the default shift 0. -/
theorem C7_counterexample :
    STFS_BlockToOffsetCall (STFS_Reset initialState) 0 = Except.ok 0xC000 ∧
      STFS_BlockToHashOffsetCall (STFS_Reset initialState) 7 = Except.ok 0xB0A8 :=
  ⟨rfl, rfl⟩

/-- C7, amended: `STFS_BlockToOffset` and `STFS_BlockToHashOffset` perform
no loaded-state check at all: called through any state (loaded or not) and
on any block index they succeed, using whatever `STFS_TableSizeShift`
currently holds (0 before any load). -/
theorem C7_amended_theorem (s : State) (blockNum : Nat) :
    (∃ n, STFS_BlockToOffsetCall s blockNum = Except.ok n) ∧
      (∃ n, STFS_BlockToHashOffsetCall s blockNum = Except.ok n) :=
  ⟨⟨_, rfl⟩, ⟨_, rfl⟩⟩

/-! ### C10 -/

/-- C10: after `STFS_Reset`, `STFS_GetFileTable` returns the boolean
`false` (not an empty list); `STFS_LoadPackage` never touches the file
table, so it keeps returning `false`; and a successful `STFS_InitFS` is
what rebuilds the table as an array. -/
theorem C10_theorem (s : State) :
    STFS_GetFileTable (STFS_Reset s) = Sum.inl false ∧
    (∀ buf, STFS_GetFileTable ((STFS_LoadPackage (STFS_Reset s) buf).2) = Sum.inl false) ∧
    (∀ s2 buf fuel, s2.packageLoaded = true →
      ∃ s3 entries, STFS_InitFS s2 buf fuel = Except.ok s3 ∧
        s3.fileTable = Sum.inr entries) := by
  refine ⟨rfl, ?_, ?_⟩
  · intro buf
    by_cases hle : buf.byteLength ≤ 0x971A
    · simp [STFS_LoadPackage, STFS_Reset, STFS_GetFileTable, hle]
    · by_cases hm : STFS_Read32 buf 0 = STFS_CON ∨ STFS_Read32 buf 0 = STFS_LIVE ∨
        STFS_Read32 buf 0 = STFS_PIRS
      · simp [STFS_LoadPackage, STFS_Reset, STFS_GetFileTable, hle, hm]
      · simp [STFS_LoadPackage, STFS_Reset, STFS_GetFileTable, hle, hm]
  · intro s2 buf fuel h
    simp only [STFS_InitFS, h, if_true]
    exact ⟨_, _, rfl, rfl⟩

/-- C10, witness: instantiating the theorem at the initial state and at a
concrete loaded state with the `c3buf` container. -/
theorem C10_witness :
    STFS_GetFileTable (STFS_Reset initialState) = Sum.inl false ∧
    STFS_GetFileTable ((STFS_LoadPackage (STFS_Reset initialState) badBuf).2) = Sum.inl false ∧
    (∃ s3 entries, STFS_InitFS loadedState c3buf 4 = Except.ok s3 ∧
      s3.fileTable = Sum.inr entries) :=
  ⟨(C10_theorem initialState).1,
    (C10_theorem initialState).2.1 badBuf,
    (C10_theorem initialState).2.2 loadedState c3buf 4 rfl⟩

/-! ### C4 -/

/-- C4, counterexample: a buffer with a recognized CON magic and length
exactly 0x971A is rejected by `STFS_LoadPackage` with the too-short error
(the source test is `byteLength <= 0x971A`), contradicting the claim that
exactly the threshold succeeds. -/
theorem C4_counterexample :
    conBufShort.byteLength = 0x971A ∧
    STFS_Read32 conBufShort 0 = STFS_CON ∧
    (STFS_LoadPackage initialState conBufShort).1 = Except.error "Input file too short" :=
  ⟨rfl, rfl, rfl⟩

/-- C4, amended: on an unloaded library with a recognized magic,
`STFS_LoadPackage` fails with the too-short error whenever the length is
at most 0x971A (the exact threshold included), and succeeds as soon as the
length strictly exceeds 0x971A. -/
theorem C4_amended_theorem (s : State) (buf : Buffer)
    (hd : s.dirty = false) (hl : s.packageLoaded = false)
    (hm : STFS_Read32 buf 0 = STFS_CON ∨ STFS_Read32 buf 0 = STFS_LIVE ∨
      STFS_Read32 buf 0 = STFS_PIRS) :
    (STFS_LoadPackage s buf).1 =
      if buf.byteLength ≤ 0x971A then Except.error "Input file too short"
      else Except.ok true := by
  rcases hm with h | h | h <;>
    by_cases hle : buf.byteLength ≤ 0x971A <;>
      simp [STFS_LoadPackage, hd, hl, hle, h]

/-- C4, witness for the amended theorem: the CON-tagged buffer one byte
above the threshold loads successfully. -/
theorem C4_amended_witness :
    (STFS_LoadPackage initialState conBufOk).1 = Except.ok true := by
  have h := C4_amended_theorem initialState conBufOk rfl rfl (Or.inl rfl)
  simpa using h

/-! ### C9 -/

/-- C9: a load attempt on an unloaded library with a long-enough buffer and
an unrecognized magic throws the invalid-archive error and leaves the dirty
flag set with the loaded flag clear, so every subsequent load throws the
dirty-state error and returns the state unchanged, until `STFS_Reset`
clears both flags. -/
theorem C9_theorem (s : State) (buf : Buffer)
    (hd : s.dirty = false) (hl : s.packageLoaded = false)
    (hlen : 0x971A < buf.byteLength)
    (hm : STFS_Read32 buf 0 ≠ STFS_CON ∧ STFS_Read32 buf 0 ≠ STFS_LIVE ∧
      STFS_Read32 buf 0 ≠ STFS_PIRS) :
    (STFS_LoadPackage s buf).1 = Except.error "Input is not a valid STFS archive" ∧
    (STFS_LoadPackage s buf).2.dirty = true ∧
    (STFS_LoadPackage s buf).2.packageLoaded = false ∧
    (∀ buf2, STFS_LoadPackage ((STFS_LoadPackage s buf).2) buf2 =
      (Except.error "STFS.js is in a dirty state, please run STFS_Reset",
        (STFS_LoadPackage s buf).2)) ∧
    (STFS_Reset ((STFS_LoadPackage s buf).2)).dirty = false ∧
    (STFS_Reset ((STFS_LoadPackage s buf).2)).packageLoaded = false := by
  have hle : ¬ buf.byteLength ≤ 0x971A := Nat.not_le.mpr hlen
  have key : STFS_LoadPackage s buf =
      (Except.error "Input is not a valid STFS archive",
        { s with dirty := true, fileBuffer := some buf }) := by
    simp [STFS_LoadPackage, hd, hl, hle, hm.1, hm.2.1, hm.2.2]
  rw [key]
  exact ⟨rfl, rfl, hl, fun buf2 => rfl, rfl, rfl⟩

/-- C9, witness: the all-zero buffer of length 0x971B (magic 0 is none of
the three tags) on the initial state. -/
theorem C9_witness :
    (STFS_LoadPackage initialState badBuf).1 =
      Except.error "Input is not a valid STFS archive" ∧
    (STFS_LoadPackage initialState badBuf).2.dirty = true ∧
    (STFS_LoadPackage initialState badBuf).2.packageLoaded = false ∧
    STFS_LoadPackage ((STFS_LoadPackage initialState badBuf).2) conBufOk =
      (Except.error "STFS.js is in a dirty state, please run STFS_Reset",
        (STFS_LoadPackage initialState badBuf).2) ∧
    (STFS_Reset ((STFS_LoadPackage initialState badBuf).2)).dirty = false := by
  have h := C9_theorem initialState badBuf rfl rfl (by decide)
    ⟨by decide, by decide, by decide⟩
  exact ⟨h.1, h.2.1, h.2.2.1, h.2.2.2.1 conBufOk, h.2.2.2.2.1⟩

/-! ### C5 -/

theorem sliceBytes_length (buf : Buffer) (offset len : Nat) :
    (sliceBytes buf offset len).length = len := by
  simp [sliceBytes]

theorem readFileChunks_sum_le (buf : Buffer) (shift : Nat) :
    ∀ (bs : List Nat) (remaining : Nat),
      ((readFileChunks buf shift bs remaining).map List.length).sum ≤ remaining := by
  intro bs
  induction bs with
  | nil => intro remaining; simp [readFileChunks]
  | cons b bs ih =>
    intro remaining
    simp only [readFileChunks]
    split
    · rename_i hle
      simp only [List.map_cons, List.map_nil, List.sum_cons, List.sum_nil,
        sliceBytes_length]
      split <;> omega
    · rename_i hgt
      simp only [List.map_cons, List.sum_cons, sliceBytes_length]
      have h := ih (remaining - 0x1000)
      split <;> omega

/-- C5, counterexample: `entry5` declares 0x2000 bytes but its chain walk
yields a single block; `STFS_ReadFile` returns `.ok` with only 0x1000
bytes, with no truncated-data signal of any kind. -/
theorem C5_counterexample :
    entry5.fileSize = 0x2000 ∧
    (STFS_ReadFile loadedState zeroBuf entry5).toOption.map
      (fun cs => (cs.map List.length).sum) = some 0x1000 := by
  constructor
  · rfl
  · show (Except.ok (readFileChunks zeroBuf 0
        (STFS_GetBlocksFromBlock 0 zeroBuf 0 0) 0x2000) :
        Except String (List (List Nat))).toOption.map
        (fun cs => (cs.map List.length).sum) = some 0x1000
    show some ((readFileChunks zeroBuf 0 [0] 0x2000).map List.length).sum = some 0x1000
    simp [readFileChunks, sliceBytes_length]

/-- C5, amended: `STFS_ReadFile` on a non-directory entry always returns
`.ok` — exhaustion of the block sequence before `fileSize` bytes is never
signalled; the bytes gathered (at most `fileSize` of them) are returned
silently.  The directory check is the only error path. -/
theorem C5_amended_theorem (s : State) (buf : Buffer) (file : FileTableEntry)
    (h : ¬ file.flags &&& 2 = 2) :
    ∃ chunks, STFS_ReadFile s buf file = Except.ok chunks ∧
      (chunks.map List.length).sum ≤ file.fileSize := by
  refine ⟨readFileChunks buf s.tableSizeShift
      (STFS_GetBlocksFromBlock s.tableSizeShift buf file.startingBlock file.numOfBlocks)
      file.fileSize,
    ?_, readFileChunks_sum_le buf s.tableSizeShift _ file.fileSize⟩
  simp [STFS_ReadFile, h]

/-- C5, witness for the amended theorem at the concrete short-chain
entry. -/
theorem C5_amended_witness :
    ∃ chunks, STFS_ReadFile loadedState zeroBuf entry5 = Except.ok chunks ∧
      (chunks.map List.length).sum ≤ entry5.fileSize :=
  C5_amended_theorem loadedState zeroBuf entry5 (by decide)

/-! ### C3 -/

/-- C3, counterexample: in `c3buf` the root chain is blocks `[0, 1]`; the
very first record byte of block 0 (data offset 0xC000) is 0, yet
`STFS_InitFS` still produces the entry found in block 1 — the zero record
stops only the current block's scan, not the whole table. -/
theorem C3_counterexample :
    STFS_Read8 c3buf (STFS_BlockToOffset 0 0) = 0 ∧
    (STFS_InitFS loadedState c3buf 4).toOption.map State.fileTable =
      some (Sum.inr [c3Entry]) := by
  decide

/-- C3, amended: a record whose first byte is 0 stops the scan of the
current block only: if the record at index `i` of a block scan has first
byte 0, at most `i` entries come from that block — but scanning resumes at
the next physical block of the root chain (see the counterexample). -/
theorem C3_amended_theorem (buf : Buffer) :
    ∀ (fuel offset i : Nat), STFS_Read8 buf (offset + 0x40 * i) = 0 →
      (scanRecords buf offset fuel).length ≤ i := by
  intro fuel
  induction fuel with
  | zero => intro offset i h; simp [scanRecords]
  | succ fuel ih =>
    intro offset i h
    simp only [scanRecords]
    split
    · simp
    · rename_i hne
      cases i with
      | zero =>
        rw [Nat.mul_zero, Nat.add_zero] at h
        exact absurd h hne
      | succ j =>
        simp only [List.length_cons]
        have h2 : STFS_Read8 buf (offset + 0x40 + 0x40 * j) = 0 := by
          have heq : offset + 0x40 + 0x40 * j = offset + 0x40 * (j + 1) := by ring
          rw [heq]; exact h
        exact Nat.succ_le_succ (ih (offset + 0x40) j h2)

/-- C3, witness for the amended theorem: on the all-zero buffer the very
first record byte is 0, so the scan yields no entries. -/
theorem C3_amended_witness : (scanRecords zeroBuf 0 3).length ≤ 0 :=
  C3_amended_theorem zeroBuf 3 0 0 rfl

/-! ### C6 -/

theorem getFilePath_cycle_none :
    ∀ fuel, STFS_GetFilePath cycTable cycE0 fuel = none ∧
      STFS_GetFilePath cycTable cycE1 fuel = none := by
  intro fuel
  induction fuel with
  | zero => exact ⟨rfl, rfl⟩
  | succ n ih =>
    constructor
    · simp only [STFS_GetFilePath]
      rw [if_neg (by decide : ¬ cycE0.parentDirectory = 0xFFFF),
        show cycTable.get? cycE0.parentDirectory = some cycE1 from rfl,
        Option.some_bind, ih.2]
      rfl
    · simp only [STFS_GetFilePath]
      rw [if_neg (by decide : ¬ cycE1.parentDirectory = 0xFFFF),
        show cycTable.get? cycE1.parentDirectory = some cycE0 from rfl,
        Option.some_bind, ih.1]
      rfl

/-- C6, counterexample: on the two-entry table whose `parentIndex`
references form the cycle 0 -> 1 -> 0, the path walk of `STFS_GetFilePath`
never terminates (no amount of fuel makes it return); no cycle detection
or bounding exists in the code. -/
theorem C6_counterexample : ¬ GetFilePathTerminates cycTable cycE0 := by
  rintro ⟨fuel, h⟩
  rw [(getFilePath_cycle_none fuel).1] at h
  simp at h

theorem getFilePath_isSome_mono (t : List FileTableEntry) :
    ∀ (n m : Nat) (f : FileTableEntry), n ≤ m →
      (STFS_GetFilePath t f n).isSome = true →
      (STFS_GetFilePath t f m).isSome = true := by
  intro n
  induction n with
  | zero => intro m f _ h; simp [STFS_GetFilePath] at h
  | succ n ih =>
    intro m f hnm h
    obtain ⟨m', rfl⟩ : ∃ m', m = m' + 1 := ⟨m - 1, by omega⟩
    simp only [STFS_GetFilePath] at h ⊢
    by_cases hp : f.parentDirectory = 0xFFFF
    · rw [if_pos hp]; rfl
    · rw [if_neg hp] at h ⊢
      cases hget : t.get? f.parentDirectory with
      | none => rw [hget] at h; simp at h
      | some parent =>
        rw [hget] at h
        simp only [Option.some_bind, Option.isSome_map'] at h ⊢
        exact ih m' parent (by omega) h

theorem getFilePath_get_isSome (t : List FileTableEntry)
    (hdec : ∀ j (hj : j < t.length),
      (t.get ⟨j, hj⟩).parentDirectory = 0xFFFF ∨
        (t.get ⟨j, hj⟩).parentDirectory < j) :
    ∀ (k i : Nat) (hi : i < t.length), i < k →
      (STFS_GetFilePath t (t.get ⟨i, hi⟩) (i + 1)).isSome = true := by
  intro k
  induction k with
  | zero => intro i hi hk; omega
  | succ k ih =>
    intro i hi hk
    by_cases hroot : (t.get ⟨i, hi⟩).parentDirectory = 0xFFFF
    · simp only [STFS_GetFilePath]
      rw [if_pos hroot]; rfl
    · rcases hdec i hi with h | hlt
      · exact absurd h hroot
      · have hpi : (t.get ⟨i, hi⟩).parentDirectory < t.length :=
          Nat.lt_trans hlt hi
        have h1 : (STFS_GetFilePath t (t.get ⟨(t.get ⟨i, hi⟩).parentDirectory, hpi⟩)
            ((t.get ⟨i, hi⟩).parentDirectory + 1)).isSome = true :=
          ih (t.get ⟨i, hi⟩).parentDirectory hpi (by omega)
        have h2 : (STFS_GetFilePath t (t.get ⟨(t.get ⟨i, hi⟩).parentDirectory, hpi⟩)
            i).isSome = true :=
          getFilePath_isSome_mono t _ i _ (by omega) h1
        simp only [STFS_GetFilePath]
        rw [if_neg hroot, List.get?_eq_get hpi]
        simp only [Option.some_bind, Option.isSome_map']
        exact h2

/-- C6, amended: the walk is not bounded and detects no cycles (see the
counterexample); it does terminate for every entry whose `parentIndex`
chain is well-formed — here: every table entry's parent is the root
sentinel or a strictly smaller index, the layout real tables use — with
fuel `table.length + 1` sufficing. -/
theorem C6_amended_theorem (t : List FileTableEntry) (f : FileTableEntry)
    (hf : f.parentDirectory = 0xFFFF ∨ f.parentDirectory < t.length)
    (hdec : ∀ j (hj : j < t.length),
      (t.get ⟨j, hj⟩).parentDirectory = 0xFFFF ∨
        (t.get ⟨j, hj⟩).parentDirectory < j) :
    (STFS_GetFilePath t f (t.length + 1)).isSome = true := by
  by_cases hroot : f.parentDirectory = 0xFFFF
  · simp only [STFS_GetFilePath]
    rw [if_pos hroot]; rfl
  · rcases hf with h | hlt
    · exact absurd h hroot
    · have h1 : (STFS_GetFilePath t (t.get ⟨f.parentDirectory, hlt⟩)
          (f.parentDirectory + 1)).isSome = true :=
        getFilePath_get_isSome t hdec t.length f.parentDirectory hlt hlt
      have h2 : (STFS_GetFilePath t (t.get ⟨f.parentDirectory, hlt⟩)
          t.length).isSome = true :=
        getFilePath_isSome_mono t _ t.length _ (by omega) h1
      simp only [STFS_GetFilePath]
      rw [if_neg hroot, List.get?_eq_get hlt]
      simp only [Option.some_bind, Option.isSome_map']
      exact h2

/-- C6, witness for the amended theorem: a one-entry table holding a root
directory and a child entry pointing at it. -/
theorem C6_amended_witness :
    (STFS_GetFilePath [rootE] childE ([rootE].length + 1)).isSome = true := by
  apply C6_amended_theorem
  · exact Or.inr (by decide)
  · intro j hj
    have hj0 : j = 0 := by simpa using hj
    subst hj0
    exact Or.inl rfl

/-! ### C8 -/

/-- C8: `STFS_BlockToOffset` is strictly increasing in the block index,
for both table-size-shift variants and all block indices in the 24-bit
range. -/
theorem C8_theorem (shift a b : Nat) (_ : shift = 0 ∨ shift = 1)
    (hab : a < b) (_ : b < 0x1000000) :
    STFS_BlockToOffset shift a < STFS_BlockToOffset shift b := by
  have h1 : (a / 0xAA + 1) <<< shift ≤ (b / 0xAA + 1) <<< shift := by
    rw [Nat.shiftLeft_eq, Nat.shiftLeft_eq]
    exact Nat.mul_le_mul_right _
      (Nat.succ_le_succ (Nat.div_le_div_right (Nat.le_of_lt hab)))
  have h2 : (a / 0x70E4 + 1) <<< shift ≤ (b / 0x70E4 + 1) <<< shift := by
    rw [Nat.shiftLeft_eq, Nat.shiftLeft_eq]
    exact Nat.mul_le_mul_right _
      (Nat.succ_le_succ (Nat.div_le_div_right (Nat.le_of_lt hab)))
  simp only [STFS_BlockToOffset]
  revert h1 h2
  generalize (a / 0xAA + 1) <<< shift = A1
  generalize (b / 0xAA + 1) <<< shift = B1
  generalize (a / 0x70E4 + 1) <<< shift = A2
  generalize (b / 0x70E4 + 1) <<< shift = B2
  intro h1 h2
  split_ifs <;> omega

/-- C8, witness at shift 0 and blocks 1 < 2. -/
theorem C8_witness : STFS_BlockToOffset 0 1 < STFS_BlockToOffset 0 2 :=
  C8_theorem 0 1 2 (Or.inl rfl) (by decide) (by decide)
